import Mathlib

/-!
Verification of the POS back-office core (sale creation, payment
reconciliation, loyalty accounting, product updates, customer creation and
webhook notification) against its natural-language specification.

The Python source is shallowly embedded: `decimal.Decimal` values become the
exact decimal type `Dec` below (an integer mantissa with a power-of-ten
scale, matching Python's exact decimal arithmetic), database tables become
lists of row structures inside a `Store`, the SQLAlchemy session's
commit/rollback discipline becomes explicit committed/pending state passing,
and fallible endpoints return `Except ApiError`.
-/

namespace Pos

/-- Exact decimal number mirroring Python `decimal.Decimal` as used by the
code: the denoted value is `man / 10 ^ exp`.  `Decimal("18.00")` is
`⟨1800, 2⟩`, `Decimal(str(18))` is `⟨18, 0⟩`. -/
structure Dec where
  man : Int
  exp : Nat
deriving DecidableEq, Repr

namespace Dec

/-- The rational value denoted by a decimal. -/
def val (d : Dec) : ℚ := (d.man : ℚ) / (10 : ℚ) ^ d.exp

/-- `Decimal(str(n))` for an integer `n`, as in the loyalty-points update. -/
def ofInt (n : Int) : Dec := ⟨n, 0⟩

/-- Decimal addition: align to the larger scale and add mantissas, exactly as
Python `Decimal.__add__` (result scale is the max of the operand scales). -/
def add (a b : Dec) : Dec :=
  ⟨a.man * 10 ^ (max a.exp b.exp - a.exp) + b.man * 10 ^ (max a.exp b.exp - b.exp),
   max a.exp b.exp⟩

/-- Decimal subtraction, aligned like `add`. -/
def sub (a b : Dec) : Dec :=
  ⟨a.man * 10 ^ (max a.exp b.exp - a.exp) - b.man * 10 ^ (max a.exp b.exp - b.exp),
   max a.exp b.exp⟩

/-- Decimal absolute value (`abs(Decimal)`). -/
def dabs (d : Dec) : Dec := ⟨|d.man|, d.exp⟩

/-- Exact decimal strict comparison (`Decimal < Decimal`). -/
def blt (a b : Dec) : Bool :=
  decide (a.man * 10 ^ (max a.exp b.exp - a.exp)
    < b.man * 10 ^ (max a.exp b.exp - b.exp))

theorem align_div (m : Int) (k e : Nat) (hk : k ≤ e) :
    ((m : ℚ) * (10 : ℚ) ^ (e - k)) / (10 : ℚ) ^ e = (m : ℚ) / (10 : ℚ) ^ k := by
  have h10 : (10 : ℚ) ^ e = (10 : ℚ) ^ k * (10 : ℚ) ^ (e - k) := by
    rw [← pow_add]
    congr 1
    omega
  rw [h10, mul_div_mul_right _ _ (by positivity)]

theorem val_add (a b : Dec) : (add a b).val = a.val + b.val := by
  unfold add val
  push_cast
  rw [add_div, align_div a.man a.exp _ (le_max_left _ _),
    align_div b.man b.exp _ (le_max_right _ _)]

theorem val_sub (a b : Dec) : (sub a b).val = a.val - b.val := by
  unfold sub val
  push_cast
  rw [sub_div, align_div a.man a.exp _ (le_max_left _ _),
    align_div b.man b.exp _ (le_max_right _ _)]

theorem val_dabs (d : Dec) : (dabs d).val = |d.val| := by
  unfold dabs val
  rw [abs_div, abs_of_pos (a := (10 : ℚ) ^ d.exp) (by positivity)]
  push_cast
  rfl

theorem val_eq_aligned (a : Dec) (e : Nat) (he : a.exp ≤ e) :
    a.val = ((a.man * 10 ^ (e - a.exp) : Int) : ℚ) / (10 : ℚ) ^ e := by
  unfold val
  push_cast
  rw [align_div _ _ _ he]

theorem blt_iff (a b : Dec) : blt a b = true ↔ a.val < b.val := by
  unfold blt
  rw [decide_eq_true_iff,
    val_eq_aligned a (max a.exp b.exp) (le_max_left _ _),
    val_eq_aligned b (max a.exp b.exp) (le_max_right _ _),
    div_lt_div_iff_of_pos_right (by positivity), Int.cast_lt]

end Dec

/-! ## Python string form of decimals and JSON serialization

`serialize_for_json` in `api/pos_sales.py` converts `Decimal` values to
strings and Pydantic models to dicts; `Sale.set_items` /
`Sale.set_payment_methods` then store `json.dumps` of the result.  The sale
row therefore holds plain strings, computed once at sale time. -/

/-- `str` of a nonnegative Python `Decimal` with mantissa `n` and scale `e`
(digits, zero-padded so the decimal point can be placed). -/
def natDecRepr (n e : Nat) : String :=
  if e = 0 then Nat.repr n
  else
    let s := Nat.repr n
    let s2 := if s.length ≤ e then String.mk (List.replicate (e + 1 - s.length) '0') ++ s else s
    s2.take (s2.length - e) ++ "." ++ s2.drop (s2.length - e)

/-- `str(Decimal)`: `⟨1800, 2⟩` prints as `18.00`. -/
def Dec.pyStr (d : Dec) : String :=
  if d.man < 0 then "-" ++ natDecRepr d.man.natAbs d.exp else natDecRepr d.man.toNat d.exp

/-- JSON string escaping as done by `json.dumps` for the characters that can
occur here. -/
def escChar (c : Char) : List Char :=
  if c = '\x22' then ['\\', '\x22']
  else if c = '\\' then ['\\', '\\']
  else if c = '\n' then ['\\', 'n']
  else if c = '\t' then ['\\', 't']
  else if c = '\r' then ['\\', 'r']
  else [c]

def jsonEscape (s : String) : String := String.mk (s.data.map escChar).flatten

/-- A JSON string literal. -/
def jstr (s : String) : String := "\x22" ++ jsonEscape s ++ "\x22"

def jOptStr : Option String → String
  | none => "null"
  | some s => jstr s

/-- `serialize_for_json` turns a `Decimal` into its string form. -/
def jOptDec : Option Dec → String
  | none => "null"
  | some d => jstr d.pyStr

/-! ## Domain data (models/pos_models.py and api/schemas/pos_schemas.py) -/

/-- `PaymentMethod` enum from `models/pos_models.py`. -/
inductive PaymentMethod where
  | advance_transfer
  | advance_cash
  | cash
  | card
  | transfer
  | loyalty_points
deriving DecidableEq, Repr

/-- The string value of the `str`-valued enum member. -/
def PaymentMethod.value : PaymentMethod → String
  | .advance_transfer => "advance_transfer"
  | .advance_cash => "advance_cash"
  | .cash => "cash"
  | .card => "card"
  | .transfer => "transfer"
  | .loyalty_points => "loyalty_points"

/-- `SaleItem` schema (union of base and discount fields). -/
structure SaleItem where
  type : String
  product_id : Option String
  name : String
  description : String
  unit_price : Dec
  quantity : Int
  total : Dec
  discount_type : Option String
  discount_value : Option Dec
  applied_to_amount : Option Dec
deriving DecidableEq, Repr

/-- `PaymentMethodItem` schema. -/
structure PaymentMethodItem where
  method : PaymentMethod
  amount : Dec
  reference : Option String
deriving DecidableEq, Repr

/-- `SaleRequest` schema. -/
structure SaleRequest where
  customer_id : String
  staff_id : String
  items : List SaleItem
  subtotal : Dec
  discount_amount : Dec
  total_amount : Dec
  loyalty_points_generated : Int
  payment_methods : List PaymentMethodItem
deriving DecidableEq, Repr

/-- `CustomerRequest` schema. -/
structure CustomerRequest where
  phone : String
  name : Option String
deriving DecidableEq, Repr

/-- `ProductRequest` schema, restricted to the fields that exist as columns
of the stored `Product` model (`update_product` also assigns
`details`/`variable_price`/`category`/`meta_data`, but the `Product` model in
`models/pos_models.py` declares no such columns, so they contribute nothing
to any stored row). -/
structure ProductRequest where
  name : String
  description : Option String
  price : Dec
deriving DecidableEq, Repr

/-- `Customer` row (`models/pos_models.py`). Timestamps are abstract ticks. -/
structure Customer where
  id : String
  phone : String
  name : Option String
  loyalty_points : Dec
  is_active : Bool
  created_at : Nat
  updated_at : Nat
deriving DecidableEq, Repr

/-- `Staff` row. -/
structure Staff where
  id : String
  name : String
  schedule : String
  is_active : Bool
  created_at : Nat
  updated_at : Nat
deriving DecidableEq, Repr

/-- `Product` row. -/
structure Product where
  id : String
  name : String
  description : Option String
  price : Dec
  is_active : Bool
  embedding_vector : Option String
  created_at : Nat
  updated_at : Nat
deriving DecidableEq, Repr

/-- `Sale` row: `items` and `payment_methods` are the stored JSON strings
(`set_items` / `set_payment_methods`). -/
structure Sale where
  id : String
  customer_id : String
  staff_id : String
  items : String
  subtotal : Dec
  discount_amount : Dec
  total_amount : Dec
  loyalty_points_generated : Int
  payment_methods : String
  embedding_vector : Option String
  created_at : Nat
  updated_at : Nat
deriving DecidableEq, Repr

/-- The relational store: one list of rows per table. -/
structure Store where
  customers : List Customer
  staff : List Staff
  products : List Product
  sales : List Sale
deriving DecidableEq, Repr

/-- `db_session.get(Customer, id)`. -/
def getCustomer (st : Store) (cid : String) : Option Customer :=
  st.customers.find? (fun c => c.id == cid)

/-- `db_session.get(Staff, id)`. -/
def getStaff (st : Store) (sid : String) : Option Staff :=
  st.staff.find? (fun s => s.id == sid)

/-- `db_session.get(Product, id)`. -/
def getProduct (st : Store) (pid : String) : Option Product :=
  st.products.find? (fun p => p.id == pid)

/-! ## Serialization of sale sub-structures (`serialize_for_json` + `json.dumps`) -/

/-- One item dict as dumped by `json.dumps` (keys in Pydantic field order,
decimals as strings, absent options as `null`). -/
def saleItemJson (it : SaleItem) : String :=
  "\x7b\x22type\x22: " ++ jstr it.type ++
  ", \x22product_id\x22: " ++ jOptStr it.product_id ++
  ", \x22name\x22: " ++ jstr it.name ++
  ", \x22description\x22: " ++ jstr it.description ++
  ", \x22unit_price\x22: " ++ jstr it.unit_price.pyStr ++
  ", \x22quantity\x22: " ++ toString it.quantity ++
  ", \x22total\x22: " ++ jstr it.total.pyStr ++
  ", \x22discount_type\x22: " ++ jOptStr it.discount_type ++
  ", \x22discount_value\x22: " ++ jOptDec it.discount_value ++
  ", \x22applied_to_amount\x22: " ++ jOptDec it.applied_to_amount ++ "\x7d"

/-- `Sale.set_items(serialize_for_json(sale_data.items))`. -/
def dumpsItems (items : List SaleItem) : String :=
  "[" ++ String.intercalate ", " (items.map saleItemJson) ++ "]"

/-- One payment-method dict as dumped by `json.dumps`. -/
def paymentItemJson (pm : PaymentMethodItem) : String :=
  "\x7b\x22method\x22: " ++ jstr pm.method.value ++
  ", \x22amount\x22: " ++ jstr pm.amount.pyStr ++
  ", \x22reference\x22: " ++ jOptStr pm.reference ++ "\x7d"

/-- `Sale.set_payment_methods(serialize_for_json(sale_data.payment_methods))`. -/
def dumpsPayments (pms : List PaymentMethodItem) : String :=
  "[" ++ String.intercalate ", " (pms.map paymentItemJson) ++ "]"

/-! ## Payment reconciliation -/

/-- `sum(pm.amount for pm in payment_methods)` — Python `sum` starts from the
integer `0`, so the fold starts at `Decimal(0)`. -/
def totalPayments (pms : List PaymentMethodItem) : Dec :=
  pms.foldl (fun acc pm => Dec.add acc pm.amount) (Dec.ofInt 0)

/-- The guard `abs(total_payments - total_amount) > Decimal('0.01')` raised
by both the schema validator and the endpoint; reconciliation passes iff the
guard does not fire. -/
def paymentsReconcile (pms : List PaymentMethodItem) (total : Dec) : Bool :=
  !(Dec.blt (Dec.mk 1 2) (Dec.dabs (Dec.sub (totalPayments pms) total)))

/-- Pydantic validator `SaleRequest.validate_payment_methods`: runs while the
request body is parsed, before the endpoint body; `total_amount` is declared
before `payment_methods`, so for a well-typed request it is always present in
`values`. -/
def validate_payment_methods (req : SaleRequest) : Except String (List PaymentMethodItem) :=
  if Dec.blt (Dec.mk 1 2) (Dec.dabs (Dec.sub (totalPayments req.payment_methods) req.total_amount))
  then Except.error "Payment methods sum must equal total amount"
  else Except.ok req.payment_methods

/-! ## Error contract and transaction model -/

/-- Errors surfaced by the API: `requestValidation` is FastAPI's 422 for a
Pydantic `ValueError`, the rest are the explicit `HTTPException`s of the
endpoints with their `detail` strings. -/
inductive ApiError where
  | requestValidation (detail : String)
  | notFound (detail : String)
  | badRequest (detail : String)
  | internalError (detail : String)
deriving DecidableEq, Repr

def ApiError.statusCode : ApiError → Nat
  | .requestValidation _ => 422
  | .notFound _ => 404
  | .badRequest _ => 400
  | .internalError _ => 500

/-- The steps of the transactional body of `create_sale` that touch the
store: staging the sale insert (`add`/`flush`), staging the customer update,
and the final `commit`. -/
inductive TxStep where
  | insertSale
  | updateCustomer
  | commitTx
deriving DecidableEq, Repr

/-- Failure injection for the transactional body: which step (if any) raises,
and the exception text `str(e)` that ends up in the 500 detail. -/
structure TxOracle where
  failAt : Option TxStep
  failMsg : String
deriving DecidableEq, Repr

/-- A run in which every store operation succeeds. -/
def noFailure : TxOracle := ⟨none, ""⟩

/-- The `Sale(...)` constructed in `create_sale`, including the
`set_items`/`set_payment_methods` snapshots: every field comes from the
request (or the clock / fresh id), none from the product table. -/
def newSaleRow (now : Nat) (saleId : String) (req : SaleRequest) : Sale :=
  { id := saleId
    customer_id := req.customer_id
    staff_id := req.staff_id
    items := dumpsItems req.items
    subtotal := req.subtotal
    discount_amount := req.discount_amount
    total_amount := req.total_amount
    loyalty_points_generated := req.loyalty_points_generated
    payment_methods := dumpsPayments req.payment_methods
    embedding_vector := none
    created_at := now
    updated_at := now }

/-- `customer.loyalty_points += Decimal(str(loyalty_points_generated))` and
`customer.updated_at = now`, applied to the row with the given id. -/
def bumpLoyalty (now : Nat) (cid : String) (points : Int) (cs : List Customer) : List Customer :=
  cs.map fun c =>
    if c.id == cid then
      { c with loyalty_points := Dec.add c.loyalty_points (Dec.ofInt points), updated_at := now }
    else c

/-- `create_sale` endpoint body (after auth): precondition checks in source
order, then the transactional body.  The session's committed state is the
input store; staged (pending) state only becomes visible if `commit` is
reached with no injected failure, and any exception in the `try` block
triggers `rollback()` — the committed store is returned unchanged — plus a
500 whose detail is `"Failed to create sale: " ++ str(e)`. -/
def create_sale (oracle : TxOracle) (now : Nat) (saleId : String)
    (req : SaleRequest) (st : Store) : Store × Except ApiError Sale :=
  match getCustomer st req.customer_id with
  | none => (st, Except.error (ApiError.notFound "Customer not found"))
  | some _ =>
    match getStaff st req.staff_id with
    | none => (st, Except.error (ApiError.notFound "Staff member not found or inactive"))
    | some staffRow =>
      if !staffRow.is_active then
        (st, Except.error (ApiError.notFound "Staff member not found or inactive"))
      else if Dec.blt (Dec.mk 1 2)
          (Dec.dabs (Dec.sub (totalPayments req.payment_methods) req.total_amount)) then
        (st, Except.error (ApiError.badRequest "Payment methods sum must equal total amount"))
      else
        let saleRow := newSaleRow now saleId req
        if oracle.failAt = some TxStep.insertSale then
          (st, Except.error (ApiError.internalError ("Failed to create sale: " ++ oracle.failMsg)))
        else
          let pending1 : Store := { st with sales := st.sales ++ [saleRow] }
          if oracle.failAt = some TxStep.updateCustomer then
            (st, Except.error (ApiError.internalError ("Failed to create sale: " ++ oracle.failMsg)))
          else
            let pending2 : Store := { pending1 with
              customers := bumpLoyalty now req.customer_id req.loyalty_points_generated
                pending1.customers }
            if oracle.failAt = some TxStep.commitTx then
              (st, Except.error (ApiError.internalError ("Failed to create sale: " ++ oracle.failMsg)))
            else (pending2, Except.ok saleRow)

/-- The full `POST /sales` pipeline: FastAPI parses the body into a
`SaleRequest`, running the Pydantic validator (a `ValueError` there becomes a
422 before the endpoint body runs), then the endpoint body executes. -/
def post_sales (oracle : TxOracle) (now : Nat) (saleId : String)
    (req : SaleRequest) (st : Store) : Store × Except ApiError Sale :=
  match validate_payment_methods req with
  | Except.error msg => (st, Except.error (ApiError.requestValidation msg))
  | Except.ok _ => create_sale oracle now saleId req st

/-! ## Customer creation (`api/pos_customers.py`) -/

/-- The freshly inserted `Customer(...)` of `create_customer`:
`loyalty_points=Decimal("0.00")`, active, server-stamped timestamps. -/
def freshCustomer (now : Nat) (newId : String) (req : CustomerRequest) : Customer :=
  { id := newId
    phone := req.phone
    name := req.name
    loyalty_points := Dec.mk 0 2
    is_active := true
    created_at := now
    updated_at := now }

/-- `create_customer` endpoint body (after auth): look up any customer with
the requested phone; return it untouched if found, otherwise insert a fresh
row with zero loyalty points. -/
def create_customer (now : Nat) (newId : String) (req : CustomerRequest) (st : Store) :
    Store × Customer :=
  match st.customers.find? (fun c => c.phone == req.phone) with
  | some existing => (st, existing)
  | none =>
    ({ st with customers := st.customers ++ [freshCustomer now newId req] },
     freshCustomer now newId req)

/-! ## Product update (`api/pos_products.py`) -/

/-- `update_product` endpoint body (after auth): 404 when the id is unknown;
otherwise overwrite the stored columns from the request (`description` only
when supplied — `name` and `price` are required fields of the schema), stamp
`updated_at`, and clear the embedding. -/
def update_product (now : Nat) (productId : String) (pd : ProductRequest) (st : Store) :
    Store × Except ApiError Product :=
  match getProduct st productId with
  | none => (st, Except.error (ApiError.notFound "Product not found"))
  | some p =>
    let p2 : Product := { p with
      name := pd.name
      description := match pd.description with | some d => some d | none => p.description
      price := pd.price
      updated_at := now
      embedding_vector := none }
    ({ st with products := st.products.map (fun q => if q.id == productId then p2 else q) },
     Except.ok p2)

/-! ## Webhook notification (`helpers/webhook_notifier.py`)

Python dicts of strings are embedded as insertion-ordered association lists:
`d[k] = v` replaces in place when the key exists and appends otherwise,
`d.get(k, dflt)` looks up with a default. -/

def dictGet (d : List (String × String)) (k : String) : Option String :=
  (d.find? (fun kv => kv.fst == k)).map (fun kv => kv.snd)

def dictGetD (d : List (String × String)) (k dflt : String) : String :=
  (dictGet d k).getD dflt

def dictSet (d : List (String × String)) (k v : String) : List (String × String) :=
  if (d.find? (fun kv => kv.fst == k)).isSome
  then d.map (fun kv => if kv.fst == k then (k, v) else kv)
  else d ++ [(k, v)]

/-- UTF-8 bytes of one character, as Python `str.encode()` produces. -/
def charUtf8 (c : Char) : List Nat :=
  let n := c.toNat
  if n < 0x80 then [n]
  else if n < 0x800 then [0xC0 + n / 0x40, 0x80 + n % 0x40]
  else if n < 0x10000 then
    [0xE0 + n / 0x1000, 0x80 + (n / 0x40) % 0x40, 0x80 + n % 0x40]
  else
    [0xF0 + n / 0x40000, 0x80 + (n / 0x1000) % 0x40, 0x80 + (n / 0x40) % 0x40, 0x80 + n % 0x40]

def utf8Bytes (s : String) : List Nat := (s.data.map charUtf8).flatten

def b64Alphabet : List Char :=
  "ABCDEFGHIJKLMNOPQRSTUVWXYZabcdefghijklmnopqrstuvwxyz0123456789+/".data

def b64Char (n : Nat) : Char := b64Alphabet.getD n 'A'

/-- Standard base64 with `=` padding, as `base64.b64encode`. -/
def b64Go : List Nat → List Char
  | [] => []
  | [a] => [b64Char (a / 4), b64Char (a % 4 * 16), '=', '=']
  | [a, b] => [b64Char (a / 4), b64Char (a % 4 * 16 + b / 16), b64Char (b % 16 * 4), '=']
  | a :: b :: c :: rest =>
    b64Char (a / 4) :: b64Char (a % 4 * 16 + b / 16) ::
      b64Char (b % 16 * 4 + c / 64) :: b64Char (c % 64) :: b64Go rest

def base64Encode (bytes : List Nat) : String := String.mk (b64Go bytes)

/-- Python `str.lower()` on the ASCII auth-type tags. -/
def strToLower (s : String) : String := String.mk (s.data.map Char.toLower)

/-- `apply_webhook_auth`: returns the headers unchanged for an empty or
typeless (missing or empty-string `type`, both falsy) config, otherwise
dispatches on the lowercased type; unrecognized types also leave the headers
unchanged. -/
def apply_webhook_auth (headers auth_config : List (String × String)) :
    List (String × String) :=
  if auth_config.isEmpty || dictGetD auth_config "type" "" == "" then headers
  else
    let auth_type := strToLower (dictGetD auth_config "type" "")
    if auth_type == "bearer" then
      dictSet headers "Authorization" ("Bearer " ++ dictGetD auth_config "token" "")
    else if auth_type == "apikey" then
      dictSet headers (dictGetD auth_config "header" "X-API-Key")
        (dictGetD auth_config "token" "")
    else if auth_type == "basic" then
      dictSet headers "Authorization"
        ("Basic " ++ base64Encode (utf8Bytes
          (dictGetD auth_config "username" "" ++ ":" ++ dictGetD auth_config "password" "")))
    else headers

/-- Notification target row.  The `SaleWebhook` model itself is not among the
provided model sources; its fields follow the spec's notification target
(identity, name, destination URL, active flag, auth configuration), with the
auth config already parsed into a dict as `get_auth_config` returns it. -/
structure SaleWebhook where
  id : String
  name : String
  url : String
  is_active : Bool
  auth_config : List (String × String)
deriving DecidableEq, Repr

/-- The possible outcomes of the HTTP POST inside `notify_single_webhook`:
a response with some status and body, a timeout, a transport error, or any
other exception. -/
inductive HttpOutcome where
  | response (statusCode : Nat) (body : String)
  | timeoutExc
  | requestErrorExc (msg : String)
  | otherExc (msg : String)
deriving DecidableEq, Repr

/-- What `notify_single_webhook` logs for one target; the function has no
other effect and raises nothing. -/
inductive DispatchLog where
  | success (statusCode : Nat)
  | failedStatus (statusCode : Nat) (truncatedBody : String)
  | timedOut
  | transportError (msg : String)
  | unexpectedError (msg : String)
deriving DecidableEq, Repr

/-- `notify_single_webhook` as a total classification of the POST outcome:
2xx logs success, any other status logs a warning with `response.text[:200]`,
and each exception class is caught and logged — by totality nothing
propagates to the caller, and no branch retries. -/
def notify_single_webhook (outcome : HttpOutcome) : DispatchLog :=
  match outcome with
  | .response s body =>
    if 200 ≤ s ∧ s < 300 then .success s else .failedStatus s (body.take 200)
  | .timeoutExc => .timedOut
  | .requestErrorExc m => .transportError m
  | .otherExc m => .unexpectedError m

/-- `notify_sale_to_webhooks`: select the active targets and notify each in
turn; `outcomeOf` gives the network outcome each attempt would see.  (The
early return when no webhook is active produces the same empty log list.) -/
def notify_sale_to_webhooks (webhooks : List SaleWebhook)
    (outcomeOf : SaleWebhook → HttpOutcome) : List (SaleWebhook × DispatchLog) :=
  (webhooks.filter (fun w => w.is_active)).map
    (fun w => (w, notify_single_webhook (outcomeOf w)))

/-! ## Concrete fixtures (used by witnesses and counterexamples) -/

def custJohn : Customer :=
  { id := "cust_1", phone := "5551234567", name := some "John Doe",
    loyalty_points := Dec.mk 5000 2, is_active := true, created_at := 0, updated_at := 0 }

def custOff : Customer :=
  { id := "cust_2", phone := "5550000000", name := some "Dormant",
    loyalty_points := Dec.mk 1000 2, is_active := false, created_at := 0, updated_at := 0 }

def staffJane : Staff :=
  { id := "staff_1", name := "Jane", schedule := "\x7b\x7d",
    is_active := true, created_at := 0, updated_at := 0 }

def staffOff : Staff :=
  { id := "staff_2", name := "Alex", schedule := "\x7b\x7d",
    is_active := false, created_at := 0, updated_at := 0 }

def prodTea : Product :=
  { id := "prod_1", name := "Tea", description := some "Green tea",
    price := Dec.mk 1000 2, is_active := true, embedding_vector := none,
    created_at := 0, updated_at := 0 }

def storeMain : Store :=
  { customers := [custJohn, custOff], staff := [staffJane, staffOff],
    products := [prodTea], sales := [] }

def itemTea : SaleItem :=
  { type := "product", product_id := some "prod_1", name := "Tea",
    description := "Green tea", unit_price := Dec.mk 1000 2, quantity := 2,
    total := Dec.mk 2000 2, discount_type := none, discount_value := none,
    applied_to_amount := none }

def payCash (amount : Dec) : PaymentMethodItem :=
  { method := PaymentMethod.cash, amount := amount, reference := none }

/-- The end-to-end scenario of the spec: total 18.00, one product item,
single cash payment of 18.00, 18 loyalty points. -/
def reqGood : SaleRequest :=
  { customer_id := "cust_1", staff_id := "staff_1", items := [itemTea],
    subtotal := Dec.mk 2000 2, discount_amount := Dec.mk 200 2,
    total_amount := Dec.mk 1800 2, loyalty_points_generated := 18,
    payment_methods := [payCash (Dec.mk 1800 2)] }

def req1798 : SaleRequest := { reqGood with payment_methods := [payCash (Dec.mk 1798 2)] }

def reqNoCust : SaleRequest := { reqGood with customer_id := "cust_missing" }

def reqNoCustBadPay : SaleRequest :=
  { reqNoCust with payment_methods := [payCash (Dec.mk 1500 2)] }

def reqOffStaff : SaleRequest := { reqGood with staff_id := "staff_2" }

def reqOffCust : SaleRequest := { reqGood with customer_id := "cust_2" }

def whA : SaleWebhook :=
  { id := "wh_1", name := "A", url := "http://a.example", is_active := true,
    auth_config := [] }

def whB : SaleWebhook :=
  { id := "wh_2", name := "B", url := "http://b.example", is_active := true,
    auth_config := [("type", "bearer"), ("token", "t")] }

def outcomesAB : SaleWebhook → HttpOutcome := fun w =>
  if w.id == "wh_1" then HttpOutcome.timeoutExc else HttpOutcome.response 200 "ok"

/-! ## Helper lemmas -/

theorem foldl_add_val (pms : List PaymentMethodItem) (init : Dec) :
    (pms.foldl (fun acc pm => Dec.add acc pm.amount) init).val
      = init.val + ((pms.map fun pm => pm.amount.val).sum) := by
  induction pms generalizing init with
  | nil => simp
  | cons pm rest ih => simp [List.foldl_cons, ih, Dec.val_add]; ring

theorem totalPayments_val (pms : List PaymentMethodItem) :
    (totalPayments pms).val = ((pms.map fun pm => pm.amount.val).sum) := by
  unfold totalPayments
  rw [foldl_add_val]
  simp [Dec.ofInt, Dec.val]

/-- The exact-decimal guard `abs(sum - total) > Decimal('0.01')` fires iff
the rational distance exceeds 1/100. -/
theorem reconcile_guard_iff (pms : List PaymentMethodItem) (total : Dec) :
    Dec.blt (Dec.mk 1 2) (Dec.dabs (Dec.sub (totalPayments pms) total)) = true
      ↔ (1 : ℚ)/100 < |((pms.map fun pm => pm.amount.val).sum) - total.val| := by
  rw [Dec.blt_iff, Dec.val_dabs, Dec.val_sub, totalPayments_val]
  norm_num [Dec.val]

theorem validate_isOk_iff (req : SaleRequest) :
    (validate_payment_methods req).isOk = true ↔
      |((req.payment_methods.map fun pm => pm.amount.val).sum) - req.total_amount.val|
        ≤ (1 : ℚ)/100 := by
  unfold validate_payment_methods
  by_cases h : Dec.blt (Dec.mk 1 2)
      (Dec.dabs (Dec.sub (totalPayments req.payment_methods) req.total_amount)) = true
  · have hb := h
    rw [reconcile_guard_iff, one_div] at hb
    simp [h, Except.isOk, Except.toBool]
    exact hb
  · have h2 := (not_iff_not.mpr (reconcile_guard_iff req.payment_methods req.total_amount)).mp h
    rw [not_lt, one_div] at h2
    simp [eq_false_of_ne_true h, Except.isOk, Except.toBool]
    exact h2

/-- `find?` by id over `bumpLoyalty` sees exactly the updated row. -/
theorem getCustomer_bumpLoyalty (now : Nat) (cid : String) (points : Int) (cs : List Customer) :
    List.find? (fun c => c.id == cid) (bumpLoyalty now cid points cs)
      = (List.find? (fun c => c.id == cid) cs).map
          (fun c => { c with
            loyalty_points := Dec.add c.loyalty_points (Dec.ofInt points)
            updated_at := now }) := by
  induction cs with
  | nil => rfl
  | cons c rest ih =>
    by_cases h : (c.id == cid) = true
    · have step : bumpLoyalty now cid points (c :: rest)
          = { c with
                loyalty_points := Dec.add c.loyalty_points (Dec.ofInt points),
                updated_at := now } :: bumpLoyalty now cid points rest := by
        simp only [bumpLoyalty, List.map_cons]
        rw [if_pos h]
      have hpred : (({ c with
          loyalty_points := Dec.add c.loyalty_points (Dec.ofInt points),
          updated_at := now } : Customer).id == cid) = true := by simpa using h
      rw [step]
      simp [List.find?, hpred, h]
    · have hb : (c.id == cid) = false := by simpa using h
      have step : bumpLoyalty now cid points (c :: rest)
          = c :: bumpLoyalty now cid points rest := by
        simp only [bumpLoyalty, List.map_cons]
        rw [if_neg (by simp [hb])]
      rw [step]
      simp [List.find?, hb]
      exact ih

/-- Success path of the sale transaction: with all preconditions met and no
injected failure, the committed store gains exactly the new sale row and the
loyalty update. -/
theorem create_sale_ok (now : Nat) (saleId : String) (req : SaleRequest) (st : Store)
    (c : Customer) (staffRow : Staff)
    (hc : getCustomer st req.customer_id = some c)
    (hs : getStaff st req.staff_id = some staffRow)
    (ha : staffRow.is_active = true)
    (hp : paymentsReconcile req.payment_methods req.total_amount = true) :
    create_sale noFailure now saleId req st =
      ({ st with
          sales := st.sales ++ [newSaleRow now saleId req]
          customers := bumpLoyalty now req.customer_id req.loyalty_points_generated st.customers },
       Except.ok (newSaleRow now saleId req)) := by
  have hblt : Dec.blt (Dec.mk 1 2)
      (Dec.dabs (Dec.sub (totalPayments req.payment_methods) req.total_amount)) = false := by
    unfold paymentsReconcile at hp
    simpa using hp
  unfold create_sale
  rw [hc, hs]
  simp [ha, hblt, noFailure]

/-- After a successful transaction, looking the customer up again sees the
incremented balance and refreshed timestamp. -/
theorem create_sale_ok_customer (now : Nat) (saleId : String) (req : SaleRequest) (st : Store)
    (c : Customer) (staffRow : Staff)
    (hc : getCustomer st req.customer_id = some c)
    (hs : getStaff st req.staff_id = some staffRow)
    (ha : staffRow.is_active = true)
    (hp : paymentsReconcile req.payment_methods req.total_amount = true) :
    getCustomer (create_sale noFailure now saleId req st).1 req.customer_id
      = some { c with
                 loyalty_points := Dec.add c.loyalty_points (Dec.ofInt req.loyalty_points_generated),
                 updated_at := now } := by
  rw [create_sale_ok now saleId req st c staffRow hc hs ha hp]
  show List.find? _ (bumpLoyalty now req.customer_id req.loyalty_points_generated st.customers)
    = _
  rw [getCustomer_bumpLoyalty]
  unfold getCustomer at hc
  rw [hc]
  rfl

/-! ## Claims -/

/-- C1 (amended): payment reconciliation succeeds iff the exact-decimal
distance between the sum of allocation amounts and the declared total is at
most 0.01; spelled out on the rational values the decimals denote.  The
claimed example total=18.00 with a single allocation of 17.98 in fact FAILS
(distance 0.02 > 0.01); the corrected examples: 18.00 passes, 17.99 passes,
17.98 and 17.50 fail. -/
theorem payment_reconciliation_tolerance :
    (∀ req : SaleRequest, (validate_payment_methods req).isOk = true ↔
      |((req.payment_methods.map fun pm => pm.amount.val).sum) - req.total_amount.val|
        ≤ (1 : ℚ)/100)
    ∧ paymentsReconcile [payCash (Dec.mk 1800 2)] (Dec.mk 1800 2) = true
    ∧ paymentsReconcile [payCash (Dec.mk 1799 2)] (Dec.mk 1800 2) = true
    ∧ paymentsReconcile [payCash (Dec.mk 1798 2)] (Dec.mk 1800 2) = false
    ∧ paymentsReconcile [payCash (Dec.mk 1750 2)] (Dec.mk 1800 2) = false :=
  ⟨validate_isOk_iff, by decide, by decide, by decide, by decide⟩

/-- C1 counterexample: the claim says a request with total=18.00 and a
single allocation of 17.98 passes validation; on the code the pipeline
rejects exactly this request with the payment-mismatch validation error
(|17.98 - 18.00| = 0.02 > 0.01). -/
theorem payment_17_98_rejected :
    post_sales noFailure 1 "sale_1" req1798 storeMain
      = (storeMain,
         Except.error (ApiError.requestValidation "Payment methods sum must equal total amount"))
    ∧ paymentsReconcile req1798.payment_methods req1798.total_amount = false :=
  ⟨rfl, by decide⟩

/-- C2 (amended): within the endpoint body the precondition order is fixed
with the customer check first — a missing customer yields exactly
NotFound("Customer not found") whatever the staff or payment data — but the
Pydantic schema validator re-checks payments while the request is parsed,
BEFORE the endpoint body, so the full pipeline only reports the customer
NotFound when the payment allocations also reconcile. -/
theorem not_found_precedence :
    (∀ (oracle : TxOracle) (now : Nat) (saleId : String) (req : SaleRequest) (st : Store),
      getCustomer st req.customer_id = none →
      create_sale oracle now saleId req st
        = (st, Except.error (ApiError.notFound "Customer not found")))
    ∧ (∀ (oracle : TxOracle) (now : Nat) (saleId : String) (req : SaleRequest) (st : Store),
      paymentsReconcile req.payment_methods req.total_amount = true →
      getCustomer st req.customer_id = none →
      post_sales oracle now saleId req st
        = (st, Except.error (ApiError.notFound "Customer not found"))) := by
  constructor
  · intro oracle now saleId req st hc
    unfold create_sale
    rw [hc]
  · intro oracle now saleId req st hp hc
    have hblt : Dec.blt (Dec.mk 1 2)
        (Dec.dabs (Dec.sub (totalPayments req.payment_methods) req.total_amount)) = false := by
      unfold paymentsReconcile at hp
      simpa using hp
    unfold post_sales validate_payment_methods
    rw [hblt]
    simp only [Bool.false_eq_true, if_false]
    unfold create_sale
    rw [hc]

/-- C2 witness: a request naming an unknown customer, with reconciled
payments, is rejected with the customer NotFound by both the endpoint body
and the full pipeline. -/
theorem not_found_precedence_witness :
    create_sale noFailure 1 "sale_1" reqNoCust storeMain
      = (storeMain, Except.error (ApiError.notFound "Customer not found"))
    ∧ post_sales noFailure 1 "sale_1" reqNoCust storeMain
      = (storeMain, Except.error (ApiError.notFound "Customer not found")) :=
  ⟨not_found_precedence.1 noFailure 1 "sale_1" reqNoCust storeMain rfl,
   not_found_precedence.2 noFailure 1 "sale_1" reqNoCust storeMain (by decide) rfl⟩

/-- C2 counterexample: a request whose customer does not exist AND whose
payments do not reconcile is reported as a payment-validation failure, not
as the customer NotFound — the schema validator runs before the endpoint
reaches its customer check, contradicting the claim that no other error
class can be the reported failure for a non-existent customer. -/
theorem mismatch_masks_not_found :
    getCustomer storeMain reqNoCustBadPay.customer_id = none
    ∧ post_sales noFailure 1 "sale_1" reqNoCustBadPay storeMain
      = (storeMain,
         Except.error (ApiError.requestValidation "Payment methods sum must equal total amount"))
    ∧ (post_sales noFailure 1 "sale_1" reqNoCustBadPay storeMain).2
      ≠ Except.error (ApiError.notFound "Customer not found") := by
  refine ⟨rfl, rfl, ?_⟩
  intro h
  have h2 : (Except.error
        (ApiError.requestValidation "Payment methods sum must equal total amount")
        : Except ApiError Sale)
      = Except.error (ApiError.notFound "Customer not found") := h
  simp at h2

/-- C3: whichever step of the transactional body fails (sale insert, customer
update or commit), the request surfaces the single 500
`Failed to create sale: ...` error and the committed store is returned
unchanged — in particular no sale row was added and the customer rows
(balance and `updated_at` included) are exactly the pre-request ones. -/
theorem transaction_rollback :
    ∀ (st : Store) (req : SaleRequest) (now : Nat) (saleId : String)
      (step : TxStep) (msg : String) (c : Customer) (staffRow : Staff),
      getCustomer st req.customer_id = some c →
      getStaff st req.staff_id = some staffRow →
      staffRow.is_active = true →
      paymentsReconcile req.payment_methods req.total_amount = true →
      create_sale ⟨some step, msg⟩ now saleId req st
        = (st, Except.error (ApiError.internalError ("Failed to create sale: " ++ msg))) := by
  intro st req now saleId step msg c staffRow hc hs ha hp
  have hblt : Dec.blt (Dec.mk 1 2)
      (Dec.dabs (Dec.sub (totalPayments req.payment_methods) req.total_amount)) = false := by
    unfold paymentsReconcile at hp
    simpa using hp
  unfold create_sale
  rw [hc, hs]
  cases step <;> simp [ha, hblt]

/-- C3 witness: injecting a failure at the customer-update step (after the
sale insert was already staged) rolls the whole transaction back. -/
theorem transaction_rollback_witness :
    create_sale ⟨some TxStep.updateCustomer, "boom"⟩ 9 "sale_1" reqGood storeMain
      = (storeMain, Except.error (ApiError.internalError "Failed to create sale: boom")) :=
  transaction_rollback storeMain reqGood 9 "sale_1" TxStep.updateCustomer "boom"
    custJohn staffJane rfl rfl rfl (by decide)

/-- C4: after a successfully committed sale, the stored customer balance is
the pre-sale balance plus `Decimal(str(loyalty_points_generated))` (exact
decimal addition) and `updated_at` is refreshed to the transaction clock. -/
theorem loyalty_accumulation :
    ∀ (now : Nat) (saleId : String) (req : SaleRequest) (st : Store)
      (c : Customer) (staffRow : Staff),
      getCustomer st req.customer_id = some c →
      getStaff st req.staff_id = some staffRow →
      staffRow.is_active = true →
      paymentsReconcile req.payment_methods req.total_amount = true →
      getCustomer (create_sale noFailure now saleId req st).1 req.customer_id
        = some { c with
                   loyalty_points := Dec.add c.loyalty_points
                     (Dec.ofInt req.loyalty_points_generated),
                   updated_at := now }
      ∧ (create_sale noFailure now saleId req st).2
        = Except.ok (newSaleRow now saleId req) := by
  intro now saleId req st c staffRow hc hs ha hp
  refine ⟨create_sale_ok_customer now saleId req st c staffRow hc hs ha hp, ?_⟩
  rw [create_sale_ok now saleId req st c staffRow hc hs ha hp]

/-- C4 witness: balance 50.00 plus a committed sale with 18 generated points
is exactly 68.00. -/
theorem loyalty_accumulation_witness :
    getCustomer (create_sale noFailure 7 "sale_1" reqGood storeMain).1 "cust_1"
      = some { custJohn with loyalty_points := Dec.mk 6800 2, updated_at := 7 }
    ∧ (create_sale noFailure 7 "sale_1" reqGood storeMain).2
      = Except.ok (newSaleRow 7 "sale_1" reqGood) := by
  have h := loyalty_accumulation 7 "sale_1" reqGood storeMain custJohn staffJane
    rfl rfl rfl (by decide)
  exact ⟨h.1.trans (by decide), h.2⟩

/-- C5: a staff id naming a stored-but-inactive member is rejected exactly
like an unknown staff id — both paths return the very same
NotFound("Staff member not found or inactive") pair with the store
untouched. -/
theorem inactive_staff_is_not_found :
    ∀ (oracle : TxOracle) (now : Nat) (saleId : String) (req : SaleRequest)
      (st : Store) (c : Customer),
      getCustomer st req.customer_id = some c →
      (∀ s, getStaff st req.staff_id = some s → s.is_active = false) →
      create_sale oracle now saleId req st
        = (st, Except.error (ApiError.notFound "Staff member not found or inactive")) := by
  intro oracle now saleId req st c hc hstaff
  unfold create_sale
  rw [hc]
  cases hst : getStaff st req.staff_id with
  | none => rfl
  | some s =>
    have := hstaff s hst
    simp [this]

/-- C5 witness: the stored but inactive staff member triggers the shared
staff NotFound. -/
theorem inactive_staff_is_not_found_witness :
    create_sale noFailure 1 "sale_1" reqOffStaff storeMain
      = (storeMain, Except.error (ApiError.notFound "Staff member not found or inactive")) :=
  inactive_staff_is_not_found noFailure 1 "sale_1" reqOffStaff storeMain custJohn rfl
    (by
      intro s h
      rw [show getStaff storeMain reqOffStaff.staff_id = some staffOff from rfl] at h
      cases h
      rfl)

/-- C6: product updates modify no sale row at all (nor any customer or staff
row), so the stored line-item strings of every committed sale are
byte-for-byte unchanged; and the stored item/payment strings of a new sale
are computed from the request alone (a denormalized snapshot, not a live
product reference). -/
theorem sale_items_are_snapshots :
    ∀ (now : Nat) (productId : String) (pd : ProductRequest) (st : Store),
      ((update_product now productId pd st).1).sales = st.sales
      ∧ ((update_product now productId pd st).1).customers = st.customers
      ∧ ((update_product now productId pd st).1).staff = st.staff
      ∧ (∀ (now2 : Nat) (saleId : String) (req : SaleRequest),
          (newSaleRow now2 saleId req).items = dumpsItems req.items
          ∧ (newSaleRow now2 saleId req).payment_methods = dumpsPayments req.payment_methods) := by
  intro now productId pd st
  refine ⟨?_, ?_, ?_, fun now2 saleId req => ⟨rfl, rfl⟩⟩ <;>
    · unfold update_product
      cases getProduct st productId <;> rfl

/-- C7: header construction follows the auth-config variant exactly —
bearer sets `Authorization: Bearer token`, apikey sets the configured header
name (default `X-API-Key`) to the token, basic sets `Authorization: Basic `
followed by the base64 of `username:password`, and an empty or typeless
config leaves the headers unchanged. -/
theorem webhook_auth_headers :
    (∀ (headers cfg : List (String × String)),
      strToLower (dictGetD cfg "type" "") = "bearer" →
      apply_webhook_auth headers cfg
        = dictSet headers "Authorization" ("Bearer " ++ dictGetD cfg "token" ""))
    ∧ (∀ (headers cfg : List (String × String)),
      strToLower (dictGetD cfg "type" "") = "apikey" →
      apply_webhook_auth headers cfg
        = dictSet headers (dictGetD cfg "header" "X-API-Key") (dictGetD cfg "token" ""))
    ∧ (∀ (headers cfg : List (String × String)),
      strToLower (dictGetD cfg "type" "") = "basic" →
      apply_webhook_auth headers cfg
        = dictSet headers "Authorization"
            ("Basic " ++ base64Encode (utf8Bytes
              (dictGetD cfg "username" "" ++ ":" ++ dictGetD cfg "password" ""))))
    ∧ (∀ (headers cfg : List (String × String)),
      dictGetD cfg "type" "" = "" →
      apply_webhook_auth headers cfg = headers) := by
  refine ⟨?_, ?_, ?_, ?_⟩
  case _ =>
    intro headers cfg h
    have he : dictGetD cfg "type" "" ≠ "" := by
      intro hEq
      rw [hEq] at h
      exact absurd h (by decide)
    have hemp : cfg.isEmpty = false := by
      cases cfg with
      | nil => exact absurd rfl he
      | cons a l => rfl
    unfold apply_webhook_auth
    simp [hemp, (by simpa using he : (dictGetD cfg "type" "" == "") = false), h]
  case _ =>
    intro headers cfg h
    have he : dictGetD cfg "type" "" ≠ "" := by
      intro hEq
      rw [hEq] at h
      exact absurd h (by decide)
    have hemp : cfg.isEmpty = false := by
      cases cfg with
      | nil => exact absurd rfl he
      | cons a l => rfl
    unfold apply_webhook_auth
    simp [hemp, (by simpa using he : (dictGetD cfg "type" "" == "") = false), h]
  case _ =>
    intro headers cfg h
    have he : dictGetD cfg "type" "" ≠ "" := by
      intro hEq
      rw [hEq] at h
      exact absurd h (by decide)
    have hemp : cfg.isEmpty = false := by
      cases cfg with
      | nil => exact absurd rfl he
      | cons a l => rfl
    unfold apply_webhook_auth
    simp [hemp, (by simpa using he : (dictGetD cfg "type" "" == "") = false), h]
  case _ =>
    intro headers cfg h
    unfold apply_webhook_auth
    simp [h]

set_option maxRecDepth 8192 in
/-- C7 witness: one concrete configuration per variant, including the
lowercasing of the tag and the base64 of `user:pass`. -/
theorem webhook_auth_headers_witness :
    apply_webhook_auth [("Content-Type", "application/json")]
        [("type", "Bearer"), ("token", "tok123")]
      = dictSet [("Content-Type", "application/json")] "Authorization"
          ("Bearer " ++ dictGetD [("type", "Bearer"), ("token", "tok123")] "token" "")
    ∧ apply_webhook_auth [("Content-Type", "application/json")]
        [("type", "apikey"), ("header", "X-Api-Token"), ("token", "k1")]
      = dictSet [("Content-Type", "application/json")]
          (dictGetD [("type", "apikey"), ("header", "X-Api-Token"), ("token", "k1")] "header"
            "X-API-Key")
          (dictGetD [("type", "apikey"), ("header", "X-Api-Token"), ("token", "k1")] "token" "")
    ∧ apply_webhook_auth [("Content-Type", "application/json")]
        [("type", "basic"), ("username", "user"), ("password", "pass")]
      = dictSet [("Content-Type", "application/json")] "Authorization"
          ("Basic " ++ base64Encode (utf8Bytes
            (dictGetD [("type", "basic"), ("username", "user"), ("password", "pass")]
                "username" ""
              ++ ":"
              ++ dictGetD [("type", "basic"), ("username", "user"), ("password", "pass")]
                "password" "")))
    ∧ apply_webhook_auth [("Content-Type", "application/json")] []
      = [("Content-Type", "application/json")] :=
  ⟨webhook_auth_headers.1 _ _ (by decide),
   webhook_auth_headers.2.1 _ _ (by decide),
   webhook_auth_headers.2.2.1 _ _ (by decide),
   webhook_auth_headers.2.2.2 _ _ (by decide)⟩

/-- C8: dispatching to a single target is a total classification of the
HTTP outcome — it raises nothing for any outcome: 2xx is logged success, a
non-2xx status is a delivery failure logged with the body truncated to 200
characters, timeouts and transport errors are logged failures; no branch
retries; and every active target is attempted with its own outcome no
matter what the other targets produced. -/
theorem webhook_dispatch_isolated :
    (∀ (s : Nat) (b : String), 200 ≤ s → s < 300 →
      notify_single_webhook (HttpOutcome.response s b) = DispatchLog.success s)
    ∧ (∀ (s : Nat) (b : String), ¬(200 ≤ s ∧ s < 300) →
      notify_single_webhook (HttpOutcome.response s b)
        = DispatchLog.failedStatus s (b.take 200))
    ∧ notify_single_webhook HttpOutcome.timeoutExc = DispatchLog.timedOut
    ∧ (∀ m, notify_single_webhook (HttpOutcome.requestErrorExc m)
        = DispatchLog.transportError m)
    ∧ (∀ m, notify_single_webhook (HttpOutcome.otherExc m)
        = DispatchLog.unexpectedError m)
    ∧ (∀ (ws : List SaleWebhook) (f : SaleWebhook → HttpOutcome) (w : SaleWebhook),
        w ∈ ws → w.is_active = true →
        (w, notify_single_webhook (f w)) ∈ notify_sale_to_webhooks ws f) := by
  refine ⟨?_, ?_, rfl, fun m => rfl, fun m => rfl, ?_⟩
  · intro s b h1 h2
    simp [notify_single_webhook, h1, h2]
  · intro s b h
    simp [notify_single_webhook, h]
  · intro ws f w hw hact
    unfold notify_sale_to_webhooks
    exact List.mem_map.mpr ⟨w, List.mem_filter.mpr ⟨hw, hact⟩, rfl⟩

set_option maxRecDepth 8192 in
/-- C8 witness: a 204 is a success, a 404 is a logged failure with its body,
and with one target timing out and one answering 200, the 200 target is
still delivered. -/
theorem webhook_dispatch_isolated_witness :
    notify_single_webhook (HttpOutcome.response 204 "x") = DispatchLog.success 204
    ∧ notify_single_webhook (HttpOutcome.response 404 "err")
      = DispatchLog.failedStatus 404 "err"
    ∧ (whB, DispatchLog.success 200) ∈ notify_sale_to_webhooks [whA, whB] outcomesAB := by
  refine ⟨webhook_dispatch_isolated.1 204 "x" (by decide) (by decide), ?_, ?_⟩
  · exact (webhook_dispatch_isolated.2.1 404 "err" (by decide)).trans rfl
  · exact webhook_dispatch_isolated.2.2.2.2.2 [whA, whB] outcomesAB whB (by simp) rfl

/-- C9: customer creation is idempotent on phone — when a customer with the
requested phone already exists, its stored row is returned as-is and the
store is untouched, and therefore two identical create calls leave the store
exactly as one call does. -/
theorem create_customer_idempotent :
    (∀ (now : Nat) (newId : String) (req : CustomerRequest) (st : Store) (c : Customer),
      st.customers.find? (fun x => x.phone == req.phone) = some c →
      create_customer now newId req st = (st, c))
    ∧ (∀ (now1 now2 : Nat) (id1 id2 : String) (req : CustomerRequest) (st : Store),
      (create_customer now2 id2 req (create_customer now1 id1 req st).1).1
        = (create_customer now1 id1 req st).1) := by
  constructor
  · intro now newId req st c h
    unfold create_customer
    rw [h]
  · intro now1 now2 id1 id2 req st
    cases h : st.customers.find? (fun x => x.phone == req.phone) with
    | some c =>
      have h1 : create_customer now1 id1 req st = (st, c) := by
        unfold create_customer
        rw [h]
      have h2 : create_customer now2 id2 req st = (st, c) := by
        unfold create_customer
        rw [h]
      rw [h1, h2]
    | none =>
      have h1 : create_customer now1 id1 req st
          = ({ st with customers := st.customers ++ [freshCustomer now1 id1 req] },
             freshCustomer now1 id1 req) := by
        unfold create_customer
        rw [h]
      have hfind : ({ st with customers := st.customers ++ [freshCustomer now1 id1 req] }
            : Store).customers.find? (fun x => x.phone == req.phone)
          = some (freshCustomer now1 id1 req) := by
        show (st.customers ++ [freshCustomer now1 id1 req]).find? _ = _
        rw [List.find?_append, h]
        simp [List.find?, freshCustomer]
      have h2 : create_customer now2 id2 req
            ({ st with customers := st.customers ++ [freshCustomer now1 id1 req] } : Store)
          = ({ st with customers := st.customers ++ [freshCustomer now1 id1 req] },
             freshCustomer now1 id1 req) := by
        unfold create_customer
        rw [hfind]
      rw [h1, h2]

/-- C9 witness: creating a customer whose phone already belongs to a stored
customer returns that row (original id, name, balance, timestamps) and
leaves the store unchanged, even though the request carries a different
name. -/
theorem create_customer_idempotent_witness :
    create_customer 3 "cust_9" { phone := "5551234567", name := some "Johnny" } storeMain
      = (storeMain, custJohn) :=
  create_customer_idempotent.1 3 "cust_9" { phone := "5551234567", name := some "Johnny" }
    storeMain custJohn rfl

/-- C10: sale creation reports the customer NotFound iff no customer row
with the given id exists — the active flag is never consulted — and a sale
for a stored-but-inactive customer (with active staff, reconciled payments
and no store failure) commits normally, sale row inserted and loyalty
incremented on the inactive customer. -/
theorem customer_check_is_existence_only :
    (∀ (oracle : TxOracle) (now : Nat) (saleId : String) (req : SaleRequest) (st : Store),
      ((create_sale oracle now saleId req st).2
          = Except.error (ApiError.notFound "Customer not found")
        ↔ getCustomer st req.customer_id = none))
    ∧ (∀ (now : Nat) (saleId : String) (req : SaleRequest) (st : Store)
        (c : Customer) (staffRow : Staff),
        getCustomer st req.customer_id = some c →
        c.is_active = false →
        getStaff st req.staff_id = some staffRow →
        staffRow.is_active = true →
        paymentsReconcile req.payment_methods req.total_amount = true →
        create_sale noFailure now saleId req st
          = ({ st with
                sales := st.sales ++ [newSaleRow now saleId req],
                customers := bumpLoyalty now req.customer_id req.loyalty_points_generated
                  st.customers },
             Except.ok (newSaleRow now saleId req))
        ∧ getCustomer (create_sale noFailure now saleId req st).1 req.customer_id
            = some { c with
                       loyalty_points := Dec.add c.loyalty_points
                         (Dec.ofInt req.loyalty_points_generated),
                       updated_at := now }) := by
  constructor
  · intro oracle now saleId req st
    cases hc : getCustomer st req.customer_id with
    | none =>
      unfold create_sale
      rw [hc]
      simp
    | some c =>
      constructor
      · intro hbad
        exfalso
        unfold create_sale at hbad
        rw [hc] at hbad
        cases hst : getStaff st req.staff_id with
        | none =>
          rw [hst] at hbad
          simp at hbad
        | some s =>
          rw [hst] at hbad
          by_cases hact : s.is_active
          · by_cases hpay : Dec.blt (Dec.mk 1 2)
                (Dec.dabs (Dec.sub (totalPayments req.payment_methods) req.total_amount)) = true
            · simp [hact, hpay] at hbad
            · by_cases h1 : oracle.failAt = some TxStep.insertSale
              · simp [hact, hpay, h1] at hbad
              · by_cases h2 : oracle.failAt = some TxStep.updateCustomer
                · simp [hact, hpay, h1, h2] at hbad
                · by_cases h3 : oracle.failAt = some TxStep.commitTx
                  · simp [hact, hpay, h1, h2, h3] at hbad
                  · simp [hact, hpay, h1, h2, h3] at hbad
          · simp [hact] at hbad
      · intro hbad
        simp at hbad
  · intro now saleId req st c staffRow hc _ hs ha hp
    exact ⟨create_sale_ok now saleId req st c staffRow hc hs ha hp,
           create_sale_ok_customer now saleId req st c staffRow hc hs ha hp⟩

/-- C10 witness: the inactive customer `cust_2` (balance 10.00) takes the
sale: it commits, the sale row is stored, and the inactive customer ends at
28.00 after the 18-point increment. -/
theorem customer_check_is_existence_only_witness :
    create_sale noFailure 4 "sale_1" reqOffCust storeMain
      = ({ storeMain with
            sales := [newSaleRow 4 "sale_1" reqOffCust],
            customers := bumpLoyalty 4 "cust_2" 18 storeMain.customers },
         Except.ok (newSaleRow 4 "sale_1" reqOffCust))
    ∧ getCustomer (create_sale noFailure 4 "sale_1" reqOffCust storeMain).1 "cust_2"
        = some { custOff with loyalty_points := Dec.mk 2800 2, updated_at := 4 } := by
  have h := customer_check_is_existence_only.2 4 "sale_1" reqOffCust storeMain custOff
    staffJane rfl rfl rfl rfl (by decide)
  exact ⟨h.1.trans rfl, h.2.trans (by decide)⟩

end Pos
